import Mathlib

set_option linter.unusedVariables false

/-!
Verification of the ride-request lifecycle and driver-assignment logic of the
serverOne backend.  The route handlers are shallowly embedded as pure
functions over an explicit store state (`DB`).  SQL `NOW()` is modelled by an
explicit `now : Nat` parameter; the serial id of an inserted row is one more
than the largest existing id.  Status values are kept as the exact strings
the source writes and compares (the admin flows use upper-case statuses such
as "PENDING"/"CONFIRMED", the driver self-service flows lower-case ones such
as "pending"/"accepted"; string comparison in the store is case-sensitive).
-/

namespace ServerOne

/-- A row of the `cab_requests` table, with the columns the lifecycle
handlers read or write. -/
structure RideRequest where
  id : Nat
  user_id : Nat
  driver_id : Option Nat
  pickup_location : String
  dropoff_location : String
  vehicle_type : Option String
  status : String
  fare_amount : Option Nat
  request_time : Nat
  created_at : Nat
  updated_at : Nat
  accepted_at : Option Nat
  completed_at : Option Nat
deriving Repr, DecidableEq

/-- A row of the `drivers` table (the columns the assignment flows touch). -/
structure Driver where
  id : Nat
  name : String
  vehicle_type : String
  vehicle_number : String
  available : Bool
  is_online : Bool
  updated_at : Nat
deriving Repr, DecidableEq

/-- The relational store: the two tables the assignment engine mutates. -/
structure DB where
  requests : List RideRequest
  drivers : List Driver
deriving Repr, DecidableEq

/-- An HTTP response: status code and message, as produced by the handlers. -/
structure Resp where
  code : Nat
  msg : String
deriving Repr, DecidableEq

/-- Serial id for an inserted request row: one more than the largest id. -/
def nextId (db : DB) : Nat :=
  db.requests.foldr (fun r m => max r.id m) 0 + 1

/-- The row inserted by POST / in src/routes/requests.js: status 'PENDING',
no driver; `vehicle_type` and `fare_amount` are not inserted and stay NULL. -/
def newRow (db : DB) (userId : Nat) (pickup dropoff : String)
    (reqTime now : Nat) : RideRequest :=
  { id := nextId db, user_id := userId, driver_id := none,
    pickup_location := pickup, dropoff_location := dropoff,
    vehicle_type := none, status := "PENDING", fare_amount := none,
    request_time := reqTime, created_at := now, updated_at := now,
    accepted_at := none, completed_at := none }

/-- POST / in src/routes/requests.js (lines 7-31): INSERT a new cab request. -/
def createRequest (db : DB) (userId : Nat) (pickup dropoff : String)
    (reqTime now : Nat) : Resp × DB :=
  (⟨201, "success"⟩,
   { db with requests := db.requests ++ [newRow db userId pickup dropoff reqTime now] })

/-- PUT /requests/:id/assign in src/unnamed/part_000 (lines 106-144): SELECT
the request by id requiring status 'PENDING' (404 otherwise), SELECT the
driver by id requiring `available = true` (404 otherwise), then UPDATE the
request to status 'CONFIRMED' with the driver bound and UPDATE the driver to
`available = false`. -/
def assignDriverPart0 (db : DB) (id driver_id : Nat) (now : Nat) : Resp × DB :=
  match db.requests.find? (fun r => r.id == id && r.status == "PENDING") with
  | none => (⟨404, "Ride request not found or not in PENDING status"⟩, db)
  | some _ =>
    match db.drivers.find? (fun d => d.id == driver_id && d.available) with
    | none => (⟨404, "Driver not found or not available"⟩, db)
    | some _ =>
      let requests := db.requests.map (fun r =>
        if r.id == id then
          { r with driver_id := some driver_id, status := "CONFIRMED",
                   updated_at := now }
        else r)
      let drivers := db.drivers.map (fun d =>
        if d.id == driver_id then { d with available := false, updated_at := now }
        else d)
      (⟨200, "Driver assigned successfully"⟩,
       { db with requests := requests, drivers := drivers })

/-- PUT /requests/:id/assign in src/routes/admin.js (lines 106-198): inside a
transaction with FOR UPDATE row locks, require the request to exist, to have
status 'PENDING' and no driver bound, and the driver row to exist (its
availability is not checked); then UPDATE the request to 'CONFIRMED' with the
driver bound.  The driver row is never mutated.  The recognised failure
messages are mapped to HTTP 400. -/
def assignDriverAdminJs (db : DB) (id driver_id : Nat) (now : Nat) : Resp × DB :=
  match db.requests.find? (fun r => r.id == id) with
  | none => (⟨400, "Ride request not found"⟩, db)
  | some r =>
    if r.status ≠ "PENDING" then
      (⟨400, "Cannot assign driver to request with status: " ++ r.status⟩, db)
    else if r.driver_id ≠ none then
      (⟨400, "Request already has a driver assigned"⟩, db)
    else
      match db.drivers.find? (fun d => d.id == driver_id) with
      | none => (⟨400, "Driver not found"⟩, db)
      | some _ =>
        let requests := db.requests.map (fun q =>
          if q.id == id then
            { q with driver_id := some driver_id, status := "CONFIRMED",
                     updated_at := now }
          else q)
        (⟨200, "Driver assigned successfully"⟩, { db with requests := requests })

/-- PUT /:id/assign in src/routes/requests.js (lines 113-164): a single
unconditional UPDATE setting `driver_id` and status 'ASSIGNED' on the row
with the given id.  There are no precondition checks; the handler responds
success regardless of the row's prior state and even when no row matched.
If the body carries no driverId the column is set to NULL. -/
def assignDriverRequestsJs (db : DB) (driverId : Option Nat) (requestId : Nat) :
    Resp × DB :=
  let requests := db.requests.map (fun r =>
    if r.id == requestId then { r with driver_id := driverId, status := "ASSIGNED" }
    else r)
  (⟨200, "Driver assigned successfully"⟩, { db with requests := requests })

/-- PUT /:id/assign in src/unnamed/part_001 (lines 121-158): like the
requests.js variant (no precondition checks) but additionally UPDATEs the
driver row to `available = false`. -/
def assignDriverPart1 (db : DB) (driverId : Option Nat) (requestId : Nat) :
    Resp × DB :=
  let requests := db.requests.map (fun r =>
    if r.id == requestId then { r with driver_id := driverId, status := "ASSIGNED" }
    else r)
  let drivers := db.drivers.map (fun d =>
    if some d.id == driverId then { d with available := false } else d)
  (⟨200, "Driver assigned successfully"⟩,
   { db with requests := requests, drivers := drivers })

/-- Body of POST /accept-request and POST /complete-request: the handlers
destructure only `requestId` from the JSON body; a driver id supplied by the
client may be present in the body but is never read. -/
structure DriverActionBody where
  requestId : Nat
  clientDriverId : Option Nat
deriving Repr, DecidableEq

/-- The SELECT check of POST /accept-request (src/unnamed/part_002 lines
375-381): is there a row with this id, status 'pending' and no driver? -/
def acceptCheck (db : DB) (requestId : Nat) : Bool :=
  (db.requests.find? (fun r =>
    r.id == requestId && r.status == "pending" && r.driver_id == none)).isSome

/-- The UPDATE of POST /accept-request (src/unnamed/part_002 lines 391-399):
keyed only on the id, it unconditionally binds the driver and sets status
'accepted', stamping `accepted_at` and `updated_at`. -/
def acceptUpdate (db : DB) (tokenDriverId requestId now : Nat) : DB :=
  { db with requests := db.requests.map (fun r =>
      if r.id == requestId then
        { r with driver_id := some tokenDriverId, status := "accepted",
                 accepted_at := some now, updated_at := now }
      else r) }

/-- POST /accept-request (src/unnamed/part_002 lines 370-414) run without
interleaving: the SELECT check followed by the UPDATE.  `tokenDriverId` and
`tokenVehicleType` come from the verified JWT; the handler reads neither
`tokenVehicleType` nor `body.clientDriverId`. -/
def acceptRequest (db : DB) (tokenDriverId : Nat) (tokenVehicleType : String)
    (body : DriverActionBody) (now : Nat) : Resp × DB :=
  if acceptCheck db body.requestId then
    (⟨200, "Request accepted successfully"⟩,
     acceptUpdate db tokenDriverId body.requestId now)
  else
    (⟨404, "Request not available or already assigned"⟩, db)

/-- POST /complete-request (src/unnamed/part_002 lines 245-296): SELECT the
row by id requiring `driver_id` to equal the caller's token id (404
otherwise), require status 'accepted' or 'in_progress' (400 otherwise), then
UPDATE the row to status 'completed' stamping `completed_at` and
`updated_at`.  `fare_amount` is not written. -/
def completeRequest (db : DB) (tokenDriverId : Nat) (body : DriverActionBody)
    (now : Nat) : Resp × DB :=
  match db.requests.find? (fun r =>
      r.id == body.requestId && r.driver_id == some tokenDriverId) with
  | none => (⟨404, "Request not found or not assigned to you"⟩, db)
  | some r =>
    if r.status == "accepted" || r.status == "in_progress" then
      (⟨200, "Ride completed successfully"⟩,
       { db with requests := db.requests.map (fun q =>
           if q.id == body.requestId then
             { q with status := "completed", completed_at := some now,
                      updated_at := now }
           else q) })
    else
      (⟨400, "Request is not in a completable state"⟩, db)

/-- Ordering used by GET /recent-requests: `ORDER BY created_at DESC`. -/
def newerFirst (a b : RideRequest) : Prop := b.created_at ≤ a.created_at

instance : DecidableRel newerFirst := fun a b => by
  unfold newerFirst; infer_instance

instance : IsTotal RideRequest newerFirst :=
  ⟨fun a b => (Nat.le_total b.created_at a.created_at)⟩

instance : IsTrans RideRequest newerFirst :=
  ⟨fun _ _ _ h1 h2 => Nat.le_trans h2 h1⟩

/-- GET /recent-requests (src/unnamed/part_002 lines 299-332): rows with
status 'pending', `driver_id` NULL and `vehicle_type` equal to the driver's
token category, ORDER BY created_at DESC, LIMIT 10. -/
def recentRequests (db : DB) (tokenVehicleType : String) : List RideRequest :=
  (List.insertionSort newerFirst
    (db.requests.filter (fun r =>
      r.status == "pending" && r.vehicle_type == some tokenVehicleType &&
        r.driver_id == none))).take 10

/-! ### Generic helper lemmas -/

theorem forallTwo_refl {α : Type} {P : α → α → Prop} (l : List α)
    (h : ∀ x ∈ l, P x x) : List.Forall₂ P l l :=
  List.forall₂_same.mpr h

theorem forallTwo_map_self {α : Type} {P : α → α → Prop} {f : α → α} (l : List α)
    (h : ∀ x ∈ l, P x (f x)) : List.Forall₂ P l (l.map f) := by
  rw [List.forall₂_map_right_iff]
  exact List.forall₂_same.mpr h

/-! ### Concrete store states used as test fixtures -/

/-- A pending, unbound request row (driver-flow casing). -/
def pendingReq (id : Nat) (vt : Option String) (created : Nat) : RideRequest :=
  { id := id, user_id := 1, driver_id := none, pickup_location := "A",
    dropoff_location := "B", vehicle_type := vt, status := "pending",
    fare_amount := none, request_time := created, created_at := created,
    updated_at := created, accepted_at := none, completed_at := none }

/-- A driver row fixture. -/
def mkDriver (id : Nat) (vt : String) (avail : Bool) : Driver :=
  { id := id, name := "d", vehicle_type := vt, vehicle_number := "N",
    available := avail, is_online := true, updated_at := 0 }

/-- One pending unbound request, two available drivers: the race fixture. -/
def raceDb : DB :=
  { requests := [pendingReq 1 (some "sedan") 0],
    drivers := [mkDriver 7 "sedan" true, mkDriver 8 "sedan" true] }

/-- A request already accepted by driver 7. -/
def acceptedDb : DB :=
  { requests := [{ pendingReq 1 (some "sedan") 0 with
      status := "accepted", driver_id := some 7 }],
    drivers := [mkDriver 7 "sedan" true] }

/-- Scenario A fixture: request 1 PENDING (admin-flow casing), driver 9
available. -/
def scenarioA : DB :=
  { requests := [{ pendingReq 1 none 0 with status := "PENDING" }],
    drivers := [mkDriver 9 "sedan" true] }

/-! ### C1 -/

/-- C1: counterexample.  The claim states that two concurrent
assignDriver/acceptRequest calls on the same pending unbound request have
exactly one winner, the loser seeing a conflict with zero side effects,
because each transition is a single conditional update.  In the source,
POST /accept-request is a separate SELECT check (`acceptCheck`) followed by
an UPDATE keyed only on the id (`acceptUpdate`).  In the interleaving
check(A); check(B); update(A); update(B) on `raceDb`, both checks read the
same pending state and return true, so both callers proceed to their UPDATE
and both respond 200; driver 7's binding is then overwritten by driver 8 —
the losing caller overwrites the winner. -/
theorem C1_counterexample :
    acceptCheck raceDb 1 = true ∧
    ((acceptUpdate raceDb 7 1 10).requests.find? (fun r => r.id == 1)).map
        (fun r => r.driver_id) = some (some 7) ∧
    ((acceptUpdate (acceptUpdate raceDb 7 1 10) 8 1 11).requests.find?
        (fun r => r.id == 1)).map (fun r => r.driver_id) = some (some 8) := by
  decide

/-- C1 (amended): when the check and update of acceptRequest are NOT
interleaved with another call, the exactly-once guarantee does hold
sequentially: after one acceptRequest succeeds, a second acceptRequest on the
same request id fails with the 404 conflict response and leaves the store
untouched.  Under concurrent interleaving of the check and the update the
guarantee fails, because the update is not conditional on the row still being
pending and unbound. -/
theorem C1_theorem (db : DB) (a b : Nat) (vta vtb : String)
    (body : DriverActionBody) (now now' : Nat)
    (h : (acceptRequest db a vta body now).1.code = 200) :
    acceptRequest (acceptRequest db a vta body now).2 b vtb body now' =
      (⟨404, "Request not available or already assigned"⟩,
        (acceptRequest db a vta body now).2) := by
  by_cases hc : acceptCheck db body.requestId
  · have hst : (acceptRequest db a vta body now).2 =
        acceptUpdate db a body.requestId now := by
      simp [acceptRequest, hc]
    have hnone : ((acceptUpdate db a body.requestId now).requests.find? (fun r =>
        r.id == body.requestId && r.status == "pending" && r.driver_id == none))
        = none := by
      rw [List.find?_eq_none]
      intro x hx
      simp only [acceptUpdate, List.mem_map] at hx
      obtain ⟨y, _, rfl⟩ := hx
      by_cases hid : y.id == body.requestId <;> simp [hid]
    have h2 : acceptCheck (acceptUpdate db a body.requestId now)
        body.requestId = false := by
      unfold acceptCheck
      rw [hnone]
      rfl
    rw [hst]
    simp [acceptRequest, h2]
  · exfalso
    simp [acceptRequest, hc] at h

/-- C1 (amended) witness at the race fixture. -/
theorem C1_witness :
    acceptRequest (acceptRequest raceDb 7 "sedan" ⟨1, none⟩ 10).2 8 "sedan"
        ⟨1, none⟩ 11 =
      (⟨404, "Request not available or already assigned"⟩,
        (acceptRequest raceDb 7 "sedan" ⟨1, none⟩ 10).2) :=
  C1_theorem raceDb 7 8 "sedan" "sedan" ⟨1, none⟩ 10 11 (by decide)

/-! ### C6 -/

/-- C6: Scenario A on the part_000 admin assign flow.  From request 1 PENDING
and unbound with driver 9 available, assignDriver(1, 9) responds 200, sets
the request to the bound status CONFIRMED with driver 9, and flips driver 9
to `available = false`; a second assignDriver(1, 9) then fails with the 404
conflict response whose message reports the not-in-PENDING-status condition,
and changes nothing. -/
theorem C6_theorem :
    (assignDriverPart0 scenarioA 1 9 5).1.code = 200 ∧
    ((assignDriverPart0 scenarioA 1 9 5).2.requests.map
      (fun r => (r.status, r.driver_id))) = [("CONFIRMED", some 9)] ∧
    ((assignDriverPart0 scenarioA 1 9 5).2.drivers.map
      (fun d => (d.id, d.available))) = [(9, false)] ∧
    (assignDriverPart0 (assignDriverPart0 scenarioA 1 9 5).2 1 9 6).1 =
      ⟨404, "Ride request not found or not in PENDING status"⟩ ∧
    (assignDriverPart0 (assignDriverPart0 scenarioA 1 9 5).2 1 9 6).2 =
      (assignDriverPart0 scenarioA 1 9 5).2 := by
  decide

/-! ### C7 -/

/-- C7: completing the same request twice by its bound driver succeeds once;
every later call fails with the 400 conflict response and leaves the store
exactly as the first completion left it, the row's status stays 'completed',
and no row's `fare_amount` is changed by the completion. -/
theorem C7_theorem (db : DB) (t : Nat) (body : DriverActionBody) (now now' : Nat)
    (h : (completeRequest db t body now).1.code = 200) :
    completeRequest (completeRequest db t body now).2 t body now' =
      (⟨400, "Request is not in a completable state"⟩,
        (completeRequest db t body now).2) ∧
    (∀ r ∈ (completeRequest db t body now).2.requests, r.id = body.requestId →
      r.status = "completed") ∧
    List.Forall₂ (fun o n => n.fare_amount = o.fare_amount) db.requests
      (completeRequest db t body now).2.requests := by
  cases hf : db.requests.find? (fun r =>
      r.id == body.requestId && r.driver_id == some t) with
  | none =>
    exfalso
    simp [completeRequest, hf] at h
  | some r =>
    by_cases hs : (r.status == "accepted" || r.status == "in_progress") = true
    · have hst : (completeRequest db t body now).2 =
          { db with requests := db.requests.map (fun q =>
              if q.id == body.requestId then
                { q with status := "completed", completed_at := some now,
                         updated_at := now }
              else q) } := by
        simp [completeRequest, hf, hs]
      have hpr : ∀ q : RideRequest,
          (fun x : RideRequest =>
            x.id == body.requestId && x.driver_id == some t)
            (if q.id == body.requestId then
              { q with status := "completed", completed_at := some now,
                       updated_at := now }
            else q) =
          (fun x : RideRequest =>
            x.id == body.requestId && x.driver_id == some t) q := by
        intro q
        by_cases hid : q.id == body.requestId <;> simp [hid]
      constructor
      · have hfind2 : ((completeRequest db t body now).2.requests.find? (fun x =>
            x.id == body.requestId && x.driver_id == some t)) =
            some { r with status := "completed", completed_at := some now,
                          updated_at := now } := by
          rw [hst]
          simp only [List.find?_map]
          have : db.requests.find? ((fun x : RideRequest =>
              x.id == body.requestId && x.driver_id == some t) ∘
              (fun q => if q.id == body.requestId then
                { q with status := "completed", completed_at := some now,
                         updated_at := now }
              else q)) = some r := by
            rw [show ((fun x : RideRequest =>
                x.id == body.requestId && x.driver_id == some t) ∘
                (fun q => if q.id == body.requestId then
                  { q with status := "completed", completed_at := some now,
                           updated_at := now }
                else q)) = (fun x : RideRequest =>
                x.id == body.requestId && x.driver_id == some t) from
              funext hpr]
            exact hf
          have hrid : (r.id == body.requestId) = true := by
            have hp := List.find?_some hf
            simp only [Bool.and_eq_true] at hp
            exact hp.1
          rw [this, Option.map_some', if_pos hrid]
        generalize hg : (completeRequest db t body now).2 = db1 at hfind2 ⊢
        simp [completeRequest, hfind2]
      constructor
      · intro q hq hqid
        rw [hst] at hq
        simp only [List.mem_map] at hq
        obtain ⟨y, _, rfl⟩ := hq
        by_cases hid : y.id == body.requestId
        · simp [hid]
        · exfalso
          simp only [hid, if_neg, Bool.false_eq_true, if_false] at hqid
          exact hid (by simp [hqid])
      · rw [hst]
        exact forallTwo_map_self db.requests (by
          intro x _
          by_cases hid : x.id == body.requestId <;> simp [hid])
    · exfalso
      simp [completeRequest, hf, hs] at h

/-- C7 witness: the two-completion run on the accepted fixture. -/
theorem C7_witness :
    completeRequest (completeRequest acceptedDb 7 ⟨1, none⟩ 5).2 7 ⟨1, none⟩ 6 =
      (⟨400, "Request is not in a completable state"⟩,
        (completeRequest acceptedDb 7 ⟨1, none⟩ 5).2) :=
  (C7_theorem acceptedDb 7 ⟨1, none⟩ 5 6 (by decide)).1

/-! ### C2 -/

/-- A request already completed and bound (admin-flow casing), with an
available driver 9: fixture for the unchecked assign flows. -/
def staleDb : DB :=
  { requests := [{ pendingReq 1 (some "sedan") 0 with
      status := "COMPLETED", driver_id := some 5 }],
    drivers := [mkDriver 9 "sedan" true] }

/-- C2: counterexample.  The claim states that assignDriver succeeds only
when the request is PENDING and unbound and that every failure is a
client-correctable 4xx with no mutation.  The assign flow of
src/routes/requests.js checks nothing: invoked on a request that is
COMPLETED and already bound to driver 5, it responds 200 and rewrites the
row to status ASSIGNED bound to driver 9. -/
theorem C2_counterexample :
    staleDb.requests.map (fun r => (r.status, r.driver_id)) =
      [("COMPLETED", some 5)] ∧
    (assignDriverRequestsJs staleDb (some 9) 1).1.code = 200 ∧
    ((assignDriverRequestsJs staleDb (some 9) 1).2.requests.map
      (fun r => (r.status, r.driver_id))) = [("ASSIGNED", some 9)] := by
  decide

/-- C2 (amended): the claimed success/failure contract holds for the
part_000 admin assign flow: it responds 200 exactly when some request row
with the given id has status PENDING and some driver row with the given id
is available; every failure is a 404 response that leaves the store
untouched.  (The request's driver reference is not separately checked, and
the requests.js assign flow cited by the claim checks nothing at all.) -/
theorem C2_theorem (db : DB) (id driver_id now : Nat) :
    ((assignDriverPart0 db id driver_id now).1.code = 200 ↔
      (∃ r ∈ db.requests, r.id = id ∧ r.status = "PENDING") ∧
      (∃ d ∈ db.drivers, d.id = driver_id ∧ d.available = true)) ∧
    ((assignDriverPart0 db id driver_id now).1.code ≠ 200 →
      (assignDriverPart0 db id driver_id now).1.code = 404 ∧
      (assignDriverPart0 db id driver_id now).2 = db) := by
  cases hr : db.requests.find? (fun r => r.id == id && r.status == "PENDING") with
  | none =>
    rw [List.find?_eq_none] at hr
    constructor
    · simp only [assignDriverPart0, List.find?_eq_none.mpr hr]
      constructor
      · intro hcode
        exact absurd hcode (by decide)
      · rintro ⟨⟨r, hrm, hrid, hrst⟩, _⟩
        exact absurd (by simp [hrid, hrst]) (hr r hrm)
    · intro _
      constructor <;> simp [assignDriverPart0, List.find?_eq_none.mpr hr]
  | some r =>
    cases hd : db.drivers.find? (fun d => d.id == driver_id && d.available) with
    | none =>
      rw [List.find?_eq_none] at hd
      constructor
      · simp only [assignDriverPart0, hr, List.find?_eq_none.mpr hd]
        constructor
        · intro hcode
          exact absurd hcode (by decide)
        · rintro ⟨_, ⟨d, hdm, hdid, hdav⟩⟩
          exact absurd (by simp [hdid, hdav]) (hd d hdm)
      · intro _
        constructor <;> simp [assignDriverPart0, hr, List.find?_eq_none.mpr hd]
    | some d =>
      constructor
      · simp only [assignDriverPart0, hr, hd]
        constructor
        · intro _
          have hrp := List.find?_some hr
          have hrm := List.mem_of_find?_eq_some hr
          have hdp := List.find?_some hd
          have hdm := List.mem_of_find?_eq_some hd
          simp only [Bool.and_eq_true, beq_iff_eq] at hrp hdp
          exact ⟨⟨r, hrm, hrp.1, hrp.2⟩, ⟨d, hdm, hdp.1, by simpa using hdp.2⟩⟩
        · intro _
          trivial
      · intro hne
        exfalso
        exact hne (by simp [assignDriverPart0, hr, hd])

/-- C2 (amended) witness: scenario A satisfies the preconditions and the
first call succeeds. -/
theorem C2_witness :
    (assignDriverPart0 scenarioA 1 9 5).1.code = 200 :=
  ((C2_theorem scenarioA 1 9 5).1).mpr
    ⟨⟨{ pendingReq 1 none 0 with status := "PENDING" }, by decide, by decide,
       by decide⟩,
     ⟨mkDriver 9 "sedan" true, by decide, by decide, by decide⟩⟩

/-! ### C8 -/

/-- A pending unbound request that needs an suv, and a sedan driver. -/
def suvDb : DB :=
  { requests := [pendingReq 1 (some "suv") 0],
    drivers := [mkDriver 7 "sedan" true] }

/-- C8: counterexample.  The claim states acceptRequest succeeds only when
the request's required vehicle category matches the accepting driver's
registered category.  POST /accept-request never reads the category: a
driver whose token carries vehicle type sedan accepts a request that
requires an suv, the call responds 200 and binds the driver. -/
theorem C8_counterexample :
    suvDb.requests.map (fun r => r.vehicle_type) = [some "suv"] ∧
    (acceptRequest suvDb 7 "sedan" ⟨1, none⟩ 5).1.code = 200 ∧
    ((acceptRequest suvDb 7 "sedan" ⟨1, none⟩ 5).2.requests.map
      (fun r => (r.status, r.driver_id))) = [("accepted", some 7)] := by
  decide

/-- C8 (amended): acceptRequest requires only that the row exist with status
'pending' and no driver bound; the vehicle category carried by the driver's
token is never consulted, so the outcome is identical for any two token
vehicle categories and a category mismatch is not rejected. -/
theorem C8_theorem (db : DB) (t : Nat) (vt vt' : String)
    (body : DriverActionBody) (now : Nat) :
    acceptRequest db t vt body now = acceptRequest db t vt' body now ∧
    ((acceptRequest db t vt body now).1.code = 200 ↔
      ∃ r ∈ db.requests, r.id = body.requestId ∧ r.status = "pending" ∧
        r.driver_id = none) := by
  constructor
  · rfl
  · by_cases hc : acceptCheck db body.requestId
    · simp only [acceptRequest, hc, if_true]
      constructor
      · intro _
        unfold acceptCheck at hc
        rw [List.find?_isSome] at hc
        obtain ⟨r, hrm, hrp⟩ := hc
        simp only [Bool.and_eq_true, beq_iff_eq] at hrp
        exact ⟨r, hrm, hrp.1.1, hrp.1.2, by simpa using hrp.2⟩
      · intro _
        trivial
    · constructor
      · intro hcode
        exfalso
        simp [acceptRequest, hc] at hcode
      · rintro ⟨r, hrm, hrid, hrst, hrdr⟩
        exact absurd (by
          unfold acceptCheck
          rw [List.find?_isSome]
          exact ⟨r, hrm, by simp [hrid, hrst, hrdr]⟩) hc

/-- C8 (amended) witness at the mismatched-category fixture. -/
theorem C8_witness :
    acceptRequest suvDb 7 "sedan" ⟨1, none⟩ 5 =
      acceptRequest suvDb 7 "suv" ⟨1, none⟩ 5 :=
  (C8_theorem suvDb 7 "sedan" "suv" ⟨1, none⟩ 5).1

/-! ### C9 -/

/-- C9: for the self-service operations the acting driver id is the verified
token id only.  Two invocations that differ only in the client-supplied
driver-id field of the body are literally the same computation — same
response, same store — for both acceptRequest and completeRequest; and a
successful accept binds the token driver id to the row. -/
theorem C9_theorem (db : DB) (t : Nat) (vt : String) (rid : Nat)
    (cd1 cd2 : Option Nat) (now : Nat) :
    acceptRequest db t vt ⟨rid, cd1⟩ now = acceptRequest db t vt ⟨rid, cd2⟩ now ∧
    completeRequest db t ⟨rid, cd1⟩ now = completeRequest db t ⟨rid, cd2⟩ now ∧
    ((acceptRequest db t vt ⟨rid, cd1⟩ now).1.code = 200 →
      ∀ r ∈ (acceptRequest db t vt ⟨rid, cd1⟩ now).2.requests, r.id = rid →
        r.driver_id = some t) := by
  refine ⟨rfl, rfl, ?_⟩
  intro hcode r hr hrid
  by_cases hc : acceptCheck db rid
  · simp only [acceptRequest, hc, if_true, acceptUpdate, List.mem_map] at hr
    obtain ⟨y, _, rfl⟩ := hr
    by_cases hid : y.id == rid
    · simp [hid]
    · exfalso
      simp only [hid, Bool.false_eq_true, if_false] at hrid
      exact hid (by simp [hrid])
  · exfalso
    simp [acceptRequest, hc] at hcode

/-- The row of `raceDb` after driver 7 accepts it at time 5. -/
def raceRowAccepted : RideRequest :=
  { pendingReq 1 (some "sedan") 0 with
      driver_id := some 7, status := "accepted", accepted_at := some 5,
      updated_at := 5 }

/-- C9 witness: identical outcomes for two different client driver ids, and
the bound driver is the token driver. -/
theorem C9_witness :
    acceptRequest raceDb 7 "sedan" ⟨1, some 3⟩ 5 =
      acceptRequest raceDb 7 "sedan" ⟨1, some 4⟩ 5 ∧
    raceRowAccepted.driver_id = some 7 :=
  ⟨(C9_theorem raceDb 7 "sedan" 1 (some 3) (some 4) 5).1,
   (C9_theorem raceDb 7 "sedan" 1 (some 3) (some 4) 5).2.2 (by decide)
     raceRowAccepted (by decide) (by decide)⟩

/-! ### C10 -/

/-- Frame condition on one request row for an operation that targets the row
with id `rid`: the row's identity and all columns outside
driver_id/status/accepted_at/completed_at/updated_at are preserved, and a row
with a different id is untouched. -/
def requestFrame (rid : Nat) (o n : RideRequest) : Prop :=
  n.id = o.id ∧ n.user_id = o.user_id ∧ n.pickup_location = o.pickup_location ∧
  n.dropoff_location = o.dropoff_location ∧ n.vehicle_type = o.vehicle_type ∧
  n.fare_amount = o.fare_amount ∧ n.request_time = o.request_time ∧
  n.created_at = o.created_at ∧ (o.id ≠ rid → n = o)

theorem requestFrame_self (rid : Nat) (x : RideRequest) : requestFrame rid x x :=
  ⟨rfl, rfl, rfl, rfl, rfl, rfl, rfl, rfl, fun _ => rfl⟩

/-- C10: acceptRequest and completeRequest write only the targeted request
row, and only its driver_id/status/accepted_at/completed_at/updated_at
columns; the drivers table — in particular every `available` flag — is left
exactly as it was. -/
theorem C10_theorem (db : DB) (t : Nat) (vt : String)
    (body : DriverActionBody) (now : Nat) :
    (acceptRequest db t vt body now).2.drivers = db.drivers ∧
    (completeRequest db t body now).2.drivers = db.drivers ∧
    List.Forall₂ (requestFrame body.requestId) db.requests
      (acceptRequest db t vt body now).2.requests ∧
    List.Forall₂ (requestFrame body.requestId) db.requests
      (completeRequest db t body now).2.requests := by
  refine ⟨?_, ?_, ?_, ?_⟩
  · by_cases hc : acceptCheck db body.requestId <;>
      simp [acceptRequest, hc, acceptUpdate]
  · cases hf : db.requests.find? (fun r =>
        r.id == body.requestId && r.driver_id == some t) with
    | none => simp [completeRequest, hf]
    | some r =>
      by_cases hs : (r.status == "accepted" || r.status == "in_progress") = true <;>
        simp [completeRequest, hf, hs]
  · by_cases hc : acceptCheck db body.requestId
    · simp only [acceptRequest, hc, if_true, acceptUpdate]
      exact forallTwo_map_self db.requests (by
        intro x _
        by_cases hid : x.id == body.requestId
        · refine ⟨?_, ?_, ?_, ?_, ?_, ?_, ?_, ?_, ?_⟩ <;> simp [hid]
          intro hne
          exact absurd (by simpa using hid) hne
        · simp only [hid, Bool.false_eq_true, if_false]
          exact requestFrame_self _ x)
    · simp only [acceptRequest, hc, if_false]
      exact forallTwo_refl db.requests (fun x _ => requestFrame_self _ x)
  · cases hf : db.requests.find? (fun r =>
        r.id == body.requestId && r.driver_id == some t) with
    | none =>
      simp only [completeRequest, hf]
      exact forallTwo_refl db.requests (fun x _ => requestFrame_self _ x)
    | some r =>
      by_cases hs : (r.status == "accepted" || r.status == "in_progress") = true
      · simp only [completeRequest, hf, hs, if_true]
        exact forallTwo_map_self db.requests (by
          intro x _
          by_cases hid : x.id == body.requestId
          · refine ⟨?_, ?_, ?_, ?_, ?_, ?_, ?_, ?_, ?_⟩ <;> simp [hid]
            intro hne
            exact absurd (by simpa using hid) hne
          · simp only [hid, Bool.false_eq_true, if_false]
            exact requestFrame_self _ x)
      · simp only [completeRequest, hf, hs, if_false]
        exact forallTwo_refl db.requests (fun x _ => requestFrame_self _ x)

/-- C10 witness: accepting on the race fixture leaves the drivers table — in
particular driver 7's availability — untouched. -/
theorem C10_witness :
    (acceptRequest raceDb 7 "sedan" ⟨1, none⟩ 5).2.drivers = raceDb.drivers :=
  (C10_theorem raceDb 7 "sedan" ⟨1, none⟩ 5).1

/-! ### C4 -/

/-- A request admin-assigned to driver 2 (status CONFIRMED). -/
def confirmedDb : DB :=
  { requests := [{ pendingReq 1 (some "sedan") 0 with
      status := "CONFIRMED", driver_id := some 2 }],
    drivers := [mkDriver 2 "sedan" false] }

/-- C4: counterexample.  The claim states completeRequest succeeds whenever
the caller is the bound driver and the status is in the bound/in-progress
range including the admin-assigned bound state CONFIRMED/ASSIGNED.  On a
request bound to driver 2 with status CONFIRMED, completeRequest by driver 2
is rejected with the 400 conflict response and nothing changes: the handler
only accepts the lower-case driver-flow statuses 'accepted' and
'in_progress'. -/
theorem C4_counterexample :
    confirmedDb.requests.map (fun r => (r.status, r.driver_id)) =
      [("CONFIRMED", some 2)] ∧
    completeRequest confirmedDb 2 ⟨1, none⟩ 5 =
      (⟨400, "Request is not in a completable state"⟩, confirmedDb) := by
  decide

/-- C4 (amended): on a store whose request ids are unique, completeRequest
responds 200 exactly when the row exists, is bound to the calling driver and
has status 'accepted' or 'in_progress' (CONFIRMED/ASSIGNED rows are not
completable); on failure the store is untouched; `fare_amount` is never
written (there is no fare finalization); and on success every row with the
target id ends with status 'completed' and a stamped completion time.  A
driver mismatch surfaces as the 404 not-found response, not as a distinct
authorization error. -/
theorem C4_theorem (db : DB) (t rid : Nat) (cd : Option Nat) (now : Nat)
    (hids : (db.requests.map RideRequest.id).Nodup) :
    ((completeRequest db t ⟨rid, cd⟩ now).1.code = 200 ↔
      ∃ r ∈ db.requests, r.id = rid ∧ r.driver_id = some t ∧
        (r.status = "accepted" ∨ r.status = "in_progress")) ∧
    ((completeRequest db t ⟨rid, cd⟩ now).1.code ≠ 200 →
      (completeRequest db t ⟨rid, cd⟩ now).2 = db) ∧
    List.Forall₂ (fun o n => n.fare_amount = o.fare_amount) db.requests
      (completeRequest db t ⟨rid, cd⟩ now).2.requests ∧
    ((completeRequest db t ⟨rid, cd⟩ now).1.code = 200 →
      ∀ q ∈ (completeRequest db t ⟨rid, cd⟩ now).2.requests, q.id = rid →
        q.status = "completed" ∧ q.completed_at = some now) := by
  cases hf : db.requests.find? (fun r => r.id == rid && r.driver_id == some t) with
  | none =>
    have hnone := List.find?_eq_none.mp hf
    refine ⟨?_, ?_, ?_, ?_⟩
    · constructor
      · intro hcode
        exfalso
        simp [completeRequest, hf] at hcode
      · rintro ⟨r, hrm, hrid, hrdr, _⟩
        exact absurd (by simp [hrid, hrdr]) (hnone r hrm)
    · intro _
      simp [completeRequest, hf]
    · simp only [completeRequest, hf]
      exact forallTwo_refl _ (fun x _ => rfl)
    · intro hcode
      exfalso
      simp [completeRequest, hf] at hcode
  | some r =>
    have hrp := List.find?_some hf
    have hrm := List.mem_of_find?_eq_some hf
    simp only [Bool.and_eq_true, beq_iff_eq] at hrp
    by_cases hs : (r.status == "accepted" || r.status == "in_progress") = true
    · have hsp : r.status = "accepted" ∨ r.status = "in_progress" := by
        simpa using hs
      refine ⟨?_, ?_, ?_, ?_⟩
      · constructor
        · intro _
          exact ⟨r, hrm, hrp.1, by simpa using hrp.2, hsp⟩
        · intro _
          simp [completeRequest, hf, hs]
      · intro hne
        exfalso
        exact hne (by simp [completeRequest, hf, hs])
      · simp only [completeRequest, hf, hs, if_true]
        exact forallTwo_map_self _ (by
          intro x _
          by_cases hid : x.id == rid <;> simp [hid])
      · intro _ q hq hqid
        simp only [completeRequest, hf, hs, if_true, List.mem_map] at hq
        obtain ⟨y, _, rfl⟩ := hq
        by_cases hid : y.id == rid
        · simp [hid]
        · exfalso
          simp only [hid, Bool.false_eq_true, if_false] at hqid
          exact hid (by simp [hqid])
    · refine ⟨?_, ?_, ?_, ?_⟩
      · constructor
        · intro hcode
          exfalso
          simp [completeRequest, hf, hs] at hcode
        · rintro ⟨q, hqm, hqid, _, hqs⟩
          exfalso
          have hqr : q = r :=
            List.inj_on_of_nodup_map hids hqm hrm (by rw [hqid, hrp.1])
          subst hqr
          exact hs (by rcases hqs with h1 | h1 <;> simp [h1])
      · intro _
        simp [completeRequest, hf, hs]
      · have hres : (completeRequest db t ⟨rid, cd⟩ now).2 = db := by
          simp [completeRequest, hf, hs]
        rw [hres]
        exact forallTwo_refl _ (fun x _ => rfl)
      · intro hcode
        exfalso
        simp [completeRequest, hf, hs] at hcode

/-- C4 (amended) witness: the accepted fixture satisfies the success
condition. -/
theorem C4_witness :
    (completeRequest acceptedDb 7 ⟨1, none⟩ 5).1.code = 200 :=
  ((C4_theorem acceptedDb 7 1 none 5 (by decide)).1).mpr
    ⟨{ pendingReq 1 (some "sedan") 0 with
        status := "accepted", driver_id := some 7 },
     by decide, by decide, by decide, Or.inl (by decide)⟩

/-! ### C5 -/

/-- Two pending unbound sedan requests, the second created later. -/
def twoPendingDb : DB :=
  { requests := [pendingReq 1 (some "sedan") 1, pendingReq 2 (some "sedan") 2],
    drivers := [mkDriver 7 "sedan" true] }

/-- C5: counterexample.  The claim states the listing is ordered by creation
time ascending (oldest first).  GET /recent-requests orders by created_at
DESC: with request 1 created at time 1 and request 2 created at time 2, the
listing returns request 2 before request 1 — newest first. -/
theorem C5_counterexample :
    twoPendingDb.requests.map (fun r => (r.id, r.created_at)) =
      [(1, 1), (2, 2)] ∧
    (recentRequests twoPendingDb "sedan").map (fun r => (r.id, r.created_at)) =
      [(2, 2), (1, 1)] := by
  decide

/-- C5 (amended): the listing returns only rows with status 'pending', an
unset driver reference and the caller's vehicle category — never a bound
request — ordered by creation time DESCENDING (newest first), limited to 10
rows. -/
theorem C5_theorem (db : DB) (vt : String) :
    (∀ r ∈ recentRequests db vt,
      r.status = "pending" ∧ r.driver_id = none ∧ r.vehicle_type = some vt) ∧
    (recentRequests db vt).Pairwise newerFirst ∧
    (recentRequests db vt).length ≤ 10 := by
  refine ⟨?_, ?_, ?_⟩
  · intro r hr
    have hr1 := List.take_subset 10 _ hr
    have hr2 := (List.perm_insertionSort newerFirst _).mem_iff.mp hr1
    rw [List.mem_filter] at hr2
    have := hr2.2
    simp only [Bool.and_eq_true, beq_iff_eq] at this
    exact ⟨this.1.1, by simpa using this.2, this.1.2⟩
  · have hs := List.sorted_insertionSort newerFirst
      (db.requests.filter (fun r =>
        r.status == "pending" && r.vehicle_type == some vt &&
          r.driver_id == none))
    exact List.Pairwise.sublist (List.take_sublist 10 _) hs
  · exact List.length_take_le 10 _

/-- C5 (amended) witness at the two-request fixture. -/
theorem C5_witness :
    pendingReq 2 (some "sedan") 2 ∈ recentRequests twoPendingDb "sedan" ∧
    (pendingReq 2 (some "sedan") 2).status = "pending" :=
  ⟨by decide,
   ((C5_theorem twoPendingDb "sedan").1 (pendingReq 2 (some "sedan") 2)
     (by decide)).1⟩

/-! ### C3 -/

/-- Modelled from the spec: the bound-or-later status set of §3, in both the
admin-flow and driver-flow casings that occur in the source. -/
def specBoundStatuses : List String :=
  ["CONFIRMED", "ASSIGNED", "ACCEPTED", "IN_PROGRESS", "COMPLETED",
   "accepted", "in_progress", "completed"]

/-- C3: counterexample.  The claim asserts that at every reachable state the
driver reference is set iff the status is bound-or-later, and that no
operation moves a request backward.  Both fail on the unchecked requests.js
assign flow, starting from states that satisfy the invariant: (a) assigning
with a missing body driverId to a freshly created PENDING request yields
status ASSIGNED — a bound-or-later status — with the driver reference still
NULL; (b) assigning driver 9 to the COMPLETED bound request of `staleDb`
rewrites it to ASSIGNED, a backward move out of COMPLETED. -/
theorem C3_counterexample :
    ((assignDriverRequestsJs (createRequest ⟨[], []⟩ 1 "A" "B" 0 0).2
        none 1).2.requests.map (fun r => (r.status, r.driver_id))) =
      [("ASSIGNED", none)] ∧
    "ASSIGNED" ∈ specBoundStatuses ∧
    staleDb.requests.map (fun r => (r.status, r.driver_id)) =
      [("COMPLETED", some 5)] ∧
    ((assignDriverRequestsJs staleDb (some 9) 1).2.requests.map
      (fun r => r.status)) = ["ASSIGNED"] := by
  decide

/-- Per-row write discipline of the exposed operations: a row keeps its id;
its status is either untouched or overwritten with one of
CONFIRMED/ASSIGNED/accepted/completed — never PENDING in either casing; and
whenever its driver reference is rewritten the status is simultaneously set
to one of the bound statuses CONFIRMED/ASSIGNED/accepted. -/
def rowWriteOk (o n : RideRequest) : Prop :=
  n.id = o.id ∧
  (n.status = o.status ∨
    n.status ∈ (["CONFIRMED", "ASSIGNED", "accepted", "completed"] : List String)) ∧
  (n.driver_id = o.driver_id ∨
    n.status ∈ (["CONFIRMED", "ASSIGNED", "accepted"] : List String))

/-- One operation's effect on the requests table: existing rows evolve under
`rowWriteOk` and appended rows are fresh PENDING unbound rows. -/
def requestsEvolveOk (db db' : DB) : Prop :=
  List.Forall₂ rowWriteOk db.requests (db'.requests.take db.requests.length) ∧
  ∀ r ∈ db'.requests.drop db.requests.length,
    r.status = "PENDING" ∧ r.driver_id = none

theorem rowWriteOk_self (x : RideRequest) : rowWriteOk x x :=
  ⟨rfl, Or.inl rfl, Or.inl rfl⟩

theorem writeSet_CONFIRMED :
    "CONFIRMED" ∈ (["CONFIRMED", "ASSIGNED", "accepted", "completed"] : List String) := by
  decide

theorem writeSet_ASSIGNED :
    "ASSIGNED" ∈ (["CONFIRMED", "ASSIGNED", "accepted", "completed"] : List String) := by
  decide

theorem writeSet_accepted :
    "accepted" ∈ (["CONFIRMED", "ASSIGNED", "accepted", "completed"] : List String) := by
  decide

theorem writeSet_completed :
    "completed" ∈ (["CONFIRMED", "ASSIGNED", "accepted", "completed"] : List String) := by
  decide

theorem bindSet_CONFIRMED :
    "CONFIRMED" ∈ (["CONFIRMED", "ASSIGNED", "accepted"] : List String) := by
  decide

theorem bindSet_ASSIGNED :
    "ASSIGNED" ∈ (["CONFIRMED", "ASSIGNED", "accepted"] : List String) := by
  decide

theorem bindSet_accepted :
    "accepted" ∈ (["CONFIRMED", "ASSIGNED", "accepted"] : List String) := by
  decide

theorem rowWriteOk_if {x n : RideRequest} {c : Prop} [Decidable c]
    (h : rowWriteOk x n) : rowWriteOk x (if c then n else x) := by
  by_cases hc : c
  · rwa [if_pos hc]
  · rw [if_neg hc]
    exact rowWriteOk_self x

theorem evolveOk_of_requests_eq {db db' : DB}
    (h : db'.requests = db.requests) : requestsEvolveOk db db' := by
  constructor
  · rw [h, List.take_length]
    exact forallTwo_refl _ (fun x _ => rowWriteOk_self x)
  · rw [h, List.drop_length]
    intro r hr
    exact absurd hr (List.not_mem_nil r)

theorem evolveOk_of_map {db db' : DB} (f : RideRequest → RideRequest)
    (h : db'.requests = db.requests.map f)
    (hf : ∀ x ∈ db.requests, rowWriteOk x (f x)) : requestsEvolveOk db db' := by
  have hlen : db.requests.length = (db.requests.map f).length :=
    (List.length_map _ _).symm
  constructor
  · rw [h, hlen, List.take_length]
    exact forallTwo_map_self _ hf
  · rw [h, hlen, List.drop_length]
    intro r hr
    exact absurd hr (List.not_mem_nil r)

theorem evolveOk_of_append {db db' : DB} (r : RideRequest)
    (h : db'.requests = db.requests ++ [r]) (h1 : r.status = "PENDING")
    (h2 : r.driver_id = none) : requestsEvolveOk db db' := by
  constructor
  · rw [h, List.take_left]
    exact forallTwo_refl _ (fun x _ => rowWriteOk_self x)
  · rw [h, List.drop_left]
    intro q hq
    rw [List.mem_singleton] at hq
    subst hq
    exact ⟨h1, h2⟩

/-- One invocation of any exposed mutating operation of the lifecycle. -/
inductive Step : DB → DB → Prop
  | create (db : DB) (userId : Nat) (p d : String) (rt now : Nat) :
      Step db (createRequest db userId p d rt now).2
  | assignPart0 (db : DB) (id driver_id now : Nat) :
      Step db (assignDriverPart0 db id driver_id now).2
  | assignAdminJs (db : DB) (id driver_id now : Nat) :
      Step db (assignDriverAdminJs db id driver_id now).2
  | assignRequestsJs (db : DB) (driverId : Option Nat) (requestId : Nat) :
      Step db (assignDriverRequestsJs db driverId requestId).2
  | assignPart1 (db : DB) (driverId : Option Nat) (requestId : Nat) :
      Step db (assignDriverPart1 db driverId requestId).2
  | accept (db : DB) (t : Nat) (vt : String) (body : DriverActionBody) (now : Nat) :
      Step db (acceptRequest db t vt body now).2
  | complete (db : DB) (t : Nat) (body : DriverActionBody) (now : Nat) :
      Step db (completeRequest db t body now).2

/-- C3 (amended): across every exposed operation, an existing row keeps its
id, its status is never rewritten to PENDING (in either casing) — so in
particular a COMPLETED request never returns to PENDING — and any rewrite of
its driver reference comes with a bound status; rows appended by creation
are PENDING and unbound.  (The claimed two-sided bind invariant and the full
no-backward-transition property are refuted by the counterexample.) -/
theorem C3_theorem {db db' : DB} (h : Step db db') : requestsEvolveOk db db' := by
  cases h with
  | create userId p d rt now =>
    exact evolveOk_of_append (newRow db userId p d rt now)
      (by simp [createRequest]) rfl rfl
  | assignPart0 id driver_id now =>
    cases hr : db.requests.find? (fun r => r.id == id && r.status == "PENDING") with
    | none => exact evolveOk_of_requests_eq (by simp [assignDriverPart0, hr])
    | some r =>
      cases hd : db.drivers.find? (fun d => d.id == driver_id && d.available) with
      | none => exact evolveOk_of_requests_eq (by simp [assignDriverPart0, hr, hd])
      | some d =>
        refine evolveOk_of_map (fun q =>
            if q.id == id then
              { q with driver_id := some driver_id, status := "CONFIRMED",
                       updated_at := now }
            else q)
          (by simp [assignDriverPart0, hr, hd]) ?_
        intro x _
        exact rowWriteOk_if ⟨rfl, Or.inr writeSet_CONFIRMED, Or.inr bindSet_CONFIRMED⟩
  | assignAdminJs id driver_id now =>
    cases hr : db.requests.find? (fun r => r.id == id) with
    | none => exact evolveOk_of_requests_eq (by simp [assignDriverAdminJs, hr])
    | some r =>
      by_cases hst : r.status = "PENDING"
      · by_cases hdr : r.driver_id = none
        · cases hd : db.drivers.find? (fun d => d.id == driver_id) with
          | none =>
            exact evolveOk_of_requests_eq
              (by simp [assignDriverAdminJs, hr, hst, hdr, hd])
          | some d =>
            refine evolveOk_of_map (fun q =>
                if q.id == id then
                  { q with driver_id := some driver_id, status := "CONFIRMED",
                           updated_at := now }
                else q)
              (by simp [assignDriverAdminJs, hr, hst, hdr, hd]) ?_
            intro x _
            exact rowWriteOk_if ⟨rfl, Or.inr writeSet_CONFIRMED, Or.inr bindSet_CONFIRMED⟩
        · exact evolveOk_of_requests_eq
            (by simp [assignDriverAdminJs, hr, hst, hdr])
      · exact evolveOk_of_requests_eq (by simp [assignDriverAdminJs, hr, hst])
  | assignRequestsJs driverId requestId =>
    refine evolveOk_of_map (fun q =>
        if q.id == requestId then { q with driver_id := driverId, status := "ASSIGNED" }
        else q)
      (by simp [assignDriverRequestsJs]) ?_
    intro x _
    exact rowWriteOk_if ⟨rfl, Or.inr writeSet_ASSIGNED, Or.inr bindSet_ASSIGNED⟩
  | assignPart1 driverId requestId =>
    refine evolveOk_of_map (fun q =>
        if q.id == requestId then { q with driver_id := driverId, status := "ASSIGNED" }
        else q)
      (by simp [assignDriverPart1]) ?_
    intro x _
    exact rowWriteOk_if ⟨rfl, Or.inr writeSet_ASSIGNED, Or.inr bindSet_ASSIGNED⟩
  | accept t vt body now =>
    by_cases hc : acceptCheck db body.requestId
    · refine evolveOk_of_map (fun q =>
          if q.id == body.requestId then
            { q with driver_id := some t, status := "accepted",
                     accepted_at := some now, updated_at := now }
          else q)
        (by simp [acceptRequest, hc, acceptUpdate]) ?_
      intro x _
      exact rowWriteOk_if ⟨rfl, Or.inr writeSet_accepted, Or.inr bindSet_accepted⟩
    · exact evolveOk_of_requests_eq (by simp [acceptRequest, hc])
  | complete t body now =>
    cases hf : db.requests.find? (fun r =>
        r.id == body.requestId && r.driver_id == some t) with
    | none => exact evolveOk_of_requests_eq (by simp [completeRequest, hf])
    | some r =>
      by_cases hs : (r.status == "accepted" || r.status == "in_progress") = true
      · refine evolveOk_of_map (fun q =>
            if q.id == body.requestId then
              { q with status := "completed", completed_at := some now,
                       updated_at := now }
            else q)
          (by simp [completeRequest, hf, hs]) ?_
        intro x _
        exact rowWriteOk_if ⟨rfl, Or.inr writeSet_completed, Or.inl rfl⟩
      · exact evolveOk_of_requests_eq (by simp [completeRequest, hf, hs])

/-- C3 (amended) witness: one unchecked assign step on the completed-request
fixture. -/
theorem C3_witness :
    requestsEvolveOk staleDb (assignDriverRequestsJs staleDb (some 9) 1).2 :=
  C3_theorem (Step.assignRequestsJs staleDb (some 9) 1)

end ServerOne
